import Mathlib

/-!
Verification of the onlinefem repository: a shallow embedding of the
Flask endpoint (submodules/femdolfinx/femdolfinx/app.py), the Django REST
viewset and serializer (onlinefem/fem/api), and the cadio Geometry wrapper
(submodules/cadio/cadio/geometry/geometry.py), with theorems settling the
spec claims about them.
-/

namespace OnlineFem

/-! ## Python-level exceptions

Uncaught Python exceptions are modelled with an explicit error type; a
function that can raise returns an Except value. -/

/-- Exceptions that the embedded code can raise. -/
inductive PyExn where
  | keyError (key : String)
  | valueError (msg : String)
  | otherExn (msg : String)
deriving Repr, DecidableEq

/-- Entries written through the logging module. -/
inductive LogEntry where
  | error (msg : String)
  | warning (msg : String)
  | debug (msg : String)
deriving Repr, DecidableEq

/-! ## Flask service (femdolfinx/app.py)

The single route accepts methods GET and POST. The handler `index` first
constructs a dolfinx RectangleMesh with hard-coded arguments, then builds
the response dictionary. -/

/-- HTTP methods accepted by the Flask route (methods=[GET, POST]). -/
inductive Method where
  | GET
  | POST
deriving Repr, DecidableEq

/-- Cell type argument of the RectangleMesh call (dolfinx.cpp.mesh.CellType). -/
inductive CellType where
  | triangle
  | quadrilateral
deriving Repr, DecidableEq

/-- Ghost mode argument of the RectangleMesh call (dolfinx.cpp.mesh.GhostMode). -/
inductive GhostMode where
  | none
  | shared_facet
deriving Repr, DecidableEq

/-- Arguments of the RectangleMesh constructor call made by `index`
(the MPI communicator is not modelled). -/
structure RectangleMeshArgs where
  corners : List (List Int)
  divisions : List Nat
  cellType : CellType
  ghostMode : GhostMode
deriving Repr, DecidableEq

/-- A Flask request: the method and, for POST, the form data
(request.form as an association list). -/
structure Request where
  method : Method
  form : List (String × String)
deriving Repr, DecidableEq

/-- Lookup of a key in form data; python `data[k]` raises KeyError when
the key is absent, modelled by the `none` case at the use site. -/
def formGet (form : List (String × String)) (key : String) : Option String :=
  match form with
  | [] => Option.none
  | (k, v) :: rest => if k = key then some v else formGet rest key

/-- The JSON object `{"numbers": ..., "method": ...}` built by the handler;
`jsonify(None)` (JSON null) is modelled as `Option.none` at the use site. -/
structure NumbersResponse where
  numbers : List Nat
  method : Method
deriving Repr, DecidableEq

/-- The mesh construction performed by `index` before building the
response: `RectangleMesh(MPI.COMM_WORLD, [np.array([0,0,0]),
np.array([1,1,0])], [32, 32], CellType.triangle, GhostMode.none)`. -/
def indexMeshArgs : RectangleMeshArgs :=
  { corners := [[0, 0, 0], [1, 1, 0]]
    divisions := [32, 32]
    cellType := CellType.triangle
    ghostMode := GhostMode.none }

/-- The response value computed by the body of `index` after the mesh
construction: `d` is first set to the numbers object; on POST it is
overwritten by `None` and restored only when `data['name'] == "numbers"`;
`data['name']` raises KeyError when the form has no key `name`. -/
def indexResponse (r : Request) : Except PyExn (Option NumbersResponse) :=
  let d : Option NumbersResponse := some ⟨List.range 10, r.method⟩
  match r.method with
  | Method.POST =>
    match formGet r.form "name" with
    | Option.none => Except.error (PyExn.keyError "name")
    | some name =>
      if name = "numbers" then
        Except.ok (some ⟨List.range 10, Method.POST⟩)
      else
        Except.ok Option.none
  | Method.GET => Except.ok d

/-- The handler `index` of app.py: it constructs the rectangle mesh (the
mesh object is retained only through its constructor arguments, it is
never used again) and returns the jsonified response value. -/
def index (r : Request) : RectangleMeshArgs × Except PyExn (Option NumbersResponse) :=
  let mesh := indexMeshArgs
  (mesh, indexResponse r)

/-! ## Django REST layer (onlinefem/fem/api, config/api_router.py)

FEMViewSet mixes in RetrieveModelMixin, ListModelMixin and
UpdateModelMixin over GenericViewSet, plus an extra collection-level
action `fem` with methods=[GET]. The router (SimpleRouter/DefaultRouter)
binds the standard method map on the list and detail routes, keeping only
the actions the viewset actually defines. -/

/-- HTTP methods relevant to the DRF router method maps. -/
inductive HttpMethod where
  | GET
  | POST
  | PUT
  | PATCH
  | DELETE
deriving Repr, DecidableEq, Fintype

/-- URL route kinds generated by the router for the registered viewset:
the collection (list) route `/fem/`, the detail route `/fem/{pk}/`, and
the extra route `/fem/fem/` from the `@action(detail=False)` decorator. -/
inductive RouteKind where
  | collection
  | detail
  | extraFem
deriving Repr, DecidableEq, Fintype

/-- Viewset handler actions in DRF's standard method maps, plus the
custom `fem` action (`updatePatch` stands for the PATCH handler that DRF
names with the partial prefix). -/
inductive ViewAction where
  | list
  | create
  | retrieve
  | update
  | updatePatch
  | destroy
  | femAction
deriving Repr, DecidableEq, Fintype

/-- DRF SimpleRouter standard method map: list route binds GET and POST,
detail route binds GET, PUT, PATCH, DELETE; the extra route binds the
methods declared by the action decorator (here only GET). -/
def routeMapping (rk : RouteKind) (m : HttpMethod) : Option ViewAction :=
  match rk, m with
  | RouteKind.collection, HttpMethod.GET => some ViewAction.list
  | RouteKind.collection, HttpMethod.POST => some ViewAction.create
  | RouteKind.detail, HttpMethod.GET => some ViewAction.retrieve
  | RouteKind.detail, HttpMethod.PUT => some ViewAction.update
  | RouteKind.detail, HttpMethod.PATCH => some ViewAction.updatePatch
  | RouteKind.extraFem, HttpMethod.GET => some ViewAction.femAction
  | RouteKind.detail, HttpMethod.DELETE => some ViewAction.destroy
  | _, _ => Option.none

/-- The actions FEMViewSet defines: retrieve (RetrieveModelMixin), list
(ListModelMixin), update and the PATCH variant (UpdateModelMixin), and
the decorated `fem` action. CreateModelMixin and DestroyModelMixin are
not mixed in, so create and destroy are absent. -/
def femViewSetActions : List ViewAction :=
  [ViewAction.retrieve, ViewAction.list, ViewAction.update,
   ViewAction.updatePatch, ViewAction.femAction]

/-- Router dispatch for the registered FEMViewSet: the standard method
map filtered to the actions the viewset defines (DRF get_method_map keeps
only bound methods that exist on the viewset class). -/
def femDispatch (rk : RouteKind) (m : HttpMethod) : Option ViewAction :=
  match routeMapping rk m with
  | some a => if a ∈ femViewSetActions then some a else Option.none
  | Option.none => Option.none

/-! ## FEM serializer (onlinefem/fem/api/serializers.py)

FEMSerializer is a ModelSerializer over the FEM model with
`fields = ('id', 'name', 'email', 'message')`. -/

/-- Modelled from the spec: the FEM model class (onlinefem/fem/models.py)
is not under src/; per the spec the persisted FEM record has fields id,
name, email, message. -/
structure FEM where
  id : Nat
  name : String
  email : String
  message : String
deriving Repr, DecidableEq

/-- JSON scalar values produced by the serializer. -/
inductive JsonVal where
  | num (n : Nat)
  | str (s : String)
deriving Repr, DecidableEq

/-- The field tuple declared in FEMSerializer.Meta. -/
def femSerializerFields : List String := ["id", "name", "email", "message"]

/-- Serialization of a FEM record by FEMSerializer: one output field per
entry of Meta.fields, in order, and nothing else. -/
def serializeFEM (r : FEM) : List (String × JsonVal) :=
  [("id", JsonVal.num r.id), ("name", JsonVal.str r.name),
   ("email", JsonVal.str r.email), ("message", JsonVal.str r.message)]

/-! ## Geometry wrapper (cadio/geometry/geometry.py)

The Geometry class wraps gmsh. External gmsh behaviour (whether gmsh.open
raises, what getDimension returns, whether gmsh.write or gmsh.finalize
raise) is modelled by explicit environment parameters; the wrapper's own
control flow is embedded faithfully. -/

/-- Characters of the final path component: scan the characters, resetting
the accumulator at each separator. -/
def lastComponent : List Char → List Char → List Char
  | [], acc => acc
  | c :: rest, acc =>
    if c = '/' then lastComponent rest [] else lastComponent rest (acc ++ [c])

/-- Python `Path(filename).name`: the final path component. -/
def pathName (filename : String) : String :=
  String.mk (lastComponent filename.toList [])

/-- Path of a file written to the cadio temp directory,
`str(TEMP_DIR / f"{tag}.{ext}")`. -/
def tempPath (tag ext : String) : String :=
  ".cadio/" ++ tag ++ "." ++ ext

/-- The apostrophe character, written by code point to build the literal
message from geometry.py. -/
def apos : String := String.mk [Char.ofNat 39]

/-- The message built by Geometry.open before the open attempt:
f-string `Can't open the file "{Path(filename).name}"`. -/
def openErrMsg (filename : String) : String :=
  "Can" ++ apos ++ " open the file \"" ++ pathName filename ++ "\""

/-- External gmsh behaviour relevant to Geometry.open on a given file:
whether gmsh.open raises ValueError, and the model dimension
getDimension() reports after the open attempt. -/
structure GmshOpenEnv where
  openRaisesValueError : Bool
  dimAfterOpen : Int
deriving Repr, DecidableEq

/-- Geometry.open: clear gmsh, attempt gmsh.open catching ValueError and
logging the message; then raise ValueError with the same message if the
model dimension is still negative, otherwise write the unrolled geometry
to the temp directory. Returns the log entries made, paired with either
the uncaught exception or the list of files written. -/
def geometryOpen (tag filename : String) (env : GmshOpenEnv) :
    List LogEntry × Except PyExn (List String) :=
  let m := openErrMsg filename
  let logs := if env.openRaisesValueError then [LogEntry.error m] else []
  if env.dimAfterOpen < 0 then
    (logs, Except.error (PyExn.valueError m))
  else
    (logs, Except.ok [tempPath tag "geo_unrolled"])

/-- Geometry.save: `gmsh.write(str(TEMP_DIR / f"{tag}.{file_format}"))`
inside a bare try/except that logs any exception. The environment says
whether gmsh.write raises (and with what message). The result is always
`Except.ok`: the logs made and the files written. -/
def geometrySave (tag fileFormat : String) (writeRaises : Option String) :
    Except PyExn (List LogEntry × List String) :=
  match writeRaises with
  | Option.none => Except.ok ([], [tempPath tag fileFormat])
  | some e => Except.ok ([LogEntry.error e], [])

/-- Result of a Geometry.__del__ call: the class counter after the call,
the value returned, and whether gmsh.finalize was invoked. -/
structure DelResult where
  counterAfter : Int
  returnValue : Int
  finalized : Bool
deriving Repr, DecidableEq

/-- Geometry.__del__: `e_code = -1`; in the try block gmsh.finalize is
called only when the class counter equals 1, and `e_code = 0` is reached
only if no exception was raised; the except clause re-raises ValueError;
the finally block decrements the counter and returns e_code, which in
Python swallows any in-flight exception, so the method never propagates
one — hence the result is always `Except.ok`. -/
def geometryDel (counter : Int) (finalizeOutcome : Except PyExn Unit) :
    Except PyExn DelResult :=
  let finalizeCalled := decide (counter = 1)
  let tryOutcome : Except PyExn Int :=
    if counter = 1 then
      match finalizeOutcome with
      | Except.ok _ => Except.ok 0
      | Except.error e => Except.error e
    else
      Except.ok 0
  let e_code : Int :=
    match tryOutcome with
    | Except.ok c => c
    | Except.error _ => -1
  Except.ok ⟨counter - 1, e_code, finalizeCalled⟩

/-! ## Geometry builders geom_a, geom_b, geom_c

The builders issue sequences of gmsh geo-kernel calls. Tags are assigned
by gmsh automatically and consecutively per entity kind; the embedding
threads a state recording the entities created and the mesh.setPeriodic
calls forwarded to gmsh. Coordinates are rationals (Python floats here
are all exactly representable decimal literals or the parameters). -/

/-- A recorded `gmsh.model.mesh.setPeriodic(dim, tags, tagsMaster,
affineTransform)` call. -/
structure PeriodicCall where
  dim : Nat
  curveTags : List Nat
  masterTags : List Nat
  affine : List ℚ
deriving Repr, DecidableEq

/-- State of the gmsh geo kernel as driven by the builders: tag counters,
created entities, physical names, recorded setPeriodic calls and writes. -/
structure GeoState where
  nPoints : Nat
  nCurves : Nat
  nLoops : Nat
  nSurfaces : Nat
  nPhys1 : Nat
  nPhys2 : Nat
  points : List (Nat × (ℚ × ℚ × ℚ) × ℚ)
  curves : List (Nat × Nat × Nat)
  physGroups : List (Nat × Nat × List Nat)
  physNames : List (Nat × Nat × String)
  periodic : List PeriodicCall
  writes : List String
deriving Repr, DecidableEq

/-- The fresh gmsh model state. -/
def emptyGeo : GeoState :=
  ⟨0, 0, 0, 0, 0, 0, [], [], [], [], [], []⟩

/-- `geo.addPoint(x, y, z, lc)` with automatic tag assignment. -/
def addPoint (x y z lc : ℚ) (s : GeoState) : Nat × GeoState :=
  let t := s.nPoints + 1
  (t, { s with nPoints := t, points := s.points ++ [(t, (x, y, z), lc)] })

/-- `geo.addLine(p, q)` with automatic tag assignment. -/
def addLine (p q : Nat) (s : GeoState) : Nat × GeoState :=
  let t := s.nCurves + 1
  (t, { s with nCurves := t, curves := s.curves ++ [(t, p, q)] })

/-- `geo.addCurveLoop(curves)` with automatic tag assignment. -/
def addCurveLoop (_cs : List Nat) (s : GeoState) : Nat × GeoState :=
  let t := s.nLoops + 1
  (t, { s with nLoops := t })

/-- `geo.addPlaneSurface(loops)` with automatic tag assignment. -/
def addPlaneSurface (_ls : List Nat) (s : GeoState) : Nat × GeoState :=
  let t := s.nSurfaces + 1
  (t, { s with nSurfaces := t })

/-- `addPhysicalGroup(dim, tags)` with automatic tag assignment per
dimension. -/
def addPhysicalGroup (dim : Nat) (tags : List Nat) (s : GeoState) :
    Nat × GeoState :=
  if dim = 1 then
    let t := s.nPhys1 + 1
    (t, { s with nPhys1 := t, physGroups := s.physGroups ++ [(dim, t, tags)] })
  else
    let t := s.nPhys2 + 1
    (t, { s with nPhys2 := t, physGroups := s.physGroups ++ [(dim, t, tags)] })

/-- `gmsh.model.setPhysicalName(dim, tag, name)`. -/
def setPhysicalName (dim tag : Nat) (name : String) (s : GeoState) : GeoState :=
  { s with physNames := s.physNames ++ [(dim, tag, name)] }

/-- `gmsh.model.mesh.setPeriodic(dim, tags, tagsMaster, affine)`: the
affine transform is forwarded to gmsh unchanged. -/
def setPeriodic (dim : Nat) (tags master : List Nat) (affine : List ℚ)
    (s : GeoState) : GeoState :=
  { s with periodic := s.periodic ++ [⟨dim, tags, master, affine⟩] }

/-- `gmsh.write(path)`. -/
def geoWrite (path : String) (s : GeoState) : GeoState :=
  { s with writes := s.writes ++ [path] }

/-- Geometry.geom_a: two stacked rectangles of width 1 and height 0.5
separated by eps, with left/right periodicity on each rectangle. -/
def geom_a (tag : String) (lc eps : ℚ) : GeoState :=
  let s := emptyGeo
  let (p0, s) := addPoint 0 0 0 (lc / 4) s
  let (p1, s) := addPoint 1 0 0 lc s
  let (p2, s) := addPoint 1 (1/2) 0 lc s
  let (p3, s) := addPoint 0 (1/2) 0 (lc / 4) s
  let (p4, s) := addPoint 0 (1/2 + eps) 0 lc s
  let (p5, s) := addPoint 1 (1/2 + eps) 0 lc s
  let (p6, s) := addPoint 1 (1 + eps) 0 lc s
  let (p7, s) := addPoint 0 (1 + eps) 0 lc s
  let (l0, s) := addLine p0 p1 s
  let (l1, s) := addLine p1 p2 s
  let (l2, s) := addLine p2 p3 s
  let (l3, s) := addLine p3 p0 s
  let (l4, s) := addLine p4 p5 s
  let (l5, s) := addLine p5 p6 s
  let (l6, s) := addLine p6 p7 s
  let (l7, s) := addLine p7 p4 s
  let (cla, s) := addCurveLoop [l0, l1, l2, l3] s
  let (clb, s) := addCurveLoop [l4, l5, l6, l7] s
  let (psa, s) := addPlaneSurface [cla] s
  let (psb, s) := addPlaneSurface [clb] s
  let (pla_l, s) := addPhysicalGroup 1 [l0] s
  let (pla_p, s) := addPhysicalGroup 1 [l1, l3] s
  let (plb_l, s) := addPhysicalGroup 1 [l2] s
  let (pla_u, s) := addPhysicalGroup 1 [l4] s
  let (plb_p, s) := addPhysicalGroup 1 [l5, l7] s
  let (plb_u, s) := addPhysicalGroup 1 [l6] s
  let s := setPhysicalName 1 pla_l "bottom_lower" s
  let s := setPhysicalName 1 pla_p "bottom_periodic" s
  let s := setPhysicalName 1 plb_l "top_lower" s
  let s := setPhysicalName 1 pla_u "bottom_upper" s
  let s := setPhysicalName 1 plb_p "top_periodic" s
  let s := setPhysicalName 1 plb_u "top_upper" s
  let (psa2, s) := addPhysicalGroup 2 [psa] s
  let (psb2, s) := addPhysicalGroup 2 [psb] s
  let s := setPhysicalName 2 psa2 "lower" s
  let s := setPhysicalName 2 psb2 "upper" s
  let translation : List ℚ :=
    [1, 0, 0, 1,
     0, 1, 0, 0,
     0, 0, 1, 0,
     0, 0, 0, 1]
  let s := setPeriodic 1 [l1] [l3] translation s
  let s := setPeriodic 1 [l5] [l7] translation s
  geoWrite (tempPath tag "geo_unrolled") s

/-- Geometry.geom_b: same two rectangles as geom_a with left/right
periodicity and an additional periodic pairing of the upper rectangle
bottom with the lower rectangle top (y-translation eps). -/
def geom_b (tag : String) (lc eps : ℚ) : GeoState :=
  let s := emptyGeo
  let (p0, s) := addPoint 0 0 0 (lc / 4) s
  let (p1, s) := addPoint 1 0 0 (lc / 4) s
  let (p2, s) := addPoint 1 (1/2) 0 (lc / 4) s
  let (p3, s) := addPoint 0 (1/2) 0 (lc / 4) s
  let (p4, s) := addPoint 0 (1/2 + eps) 0 lc s
  let (p5, s) := addPoint 1 (1/2 + eps) 0 lc s
  let (p6, s) := addPoint 1 (1 + eps) 0 lc s
  let (p7, s) := addPoint 0 (1 + eps) 0 lc s
  let (l0, s) := addLine p0 p1 s
  let (l1, s) := addLine p1 p2 s
  let (l2, s) := addLine p2 p3 s
  let (l3, s) := addLine p3 p0 s
  let (l4, s) := addLine p4 p5 s
  let (l5, s) := addLine p5 p6 s
  let (l6, s) := addLine p6 p7 s
  let (l7, s) := addLine p7 p4 s
  let (cla, s) := addCurveLoop [l0, l1, l2, l3] s
  let (clb, s) := addCurveLoop [l4, l5, l6, l7] s
  let (psa, s) := addPlaneSurface [cla] s
  let (psb, s) := addPlaneSurface [clb] s
  let (pla_l, s) := addPhysicalGroup 1 [l0] s
  let (pla_p, s) := addPhysicalGroup 1 [l1, l3] s
  let (pl_pair, s) := addPhysicalGroup 1 [l2, l4] s
  let (plb_p, s) := addPhysicalGroup 1 [l5, l7] s
  let (plb_u, s) := addPhysicalGroup 1 [l6] s
  let s := setPhysicalName 1 pla_l "bottom_lower" s
  let s := setPhysicalName 1 pla_p "bottom_periodic" s
  let s := setPhysicalName 1 pl_pair "pair" s
  let s := setPhysicalName 1 plb_p "top_periodic" s
  let s := setPhysicalName 1 plb_u "top_upper" s
  let (psa2, s) := addPhysicalGroup 2 [psa] s
  let (psb2, s) := addPhysicalGroup 2 [psb] s
  let s := setPhysicalName 2 psa2 "lower" s
  let s := setPhysicalName 2 psb2 "upper" s
  let translation : List ℚ :=
    [1, 0, 0, 1,
     0, 1, 0, 0,
     0, 0, 1, 0,
     0, 0, 0, 1]
  let s := setPeriodic 1 [l1] [l3] translation s
  let s := setPeriodic 1 [l5] [l7] translation s
  let translation2 : List ℚ :=
    [1, 0, 0, 0,
     0, 1, 0, eps,
     0, 0, 1, 0,
     0, 0, 0, 1]
  let s := setPeriodic 1 [l4] [l2] translation2 s
  geoWrite (tempPath tag "geo_unrolled") s

/-- Geometry.geom_c: a single rectangle of width w and height h (keyword
defaults 1.0 and 0.5) with left/right periodicity. -/
def geom_c (tag : String) (lc w h : ℚ) : GeoState :=
  let s := emptyGeo
  let (p0, s) := addPoint 0 0 0 (lc / 4) s
  let (p1, s) := addPoint w 0 0 lc s
  let (p2, s) := addPoint w h 0 lc s
  let (p3, s) := addPoint 0 h 0 (lc / 4) s
  let (l0, s) := addLine p0 p1 s
  let (l1, s) := addLine p1 p2 s
  let (l2, s) := addLine p2 p3 s
  let (l3, s) := addLine p3 p0 s
  let (cla, s) := addCurveLoop [l0, l1, l2, l3] s
  let (psa, s) := addPlaneSurface [cla] s
  let (pla_l, s) := addPhysicalGroup 1 [l0] s
  let (pla_p, s) := addPhysicalGroup 1 [l1, l3] s
  let (pla_u, s) := addPhysicalGroup 1 [l2] s
  let s := setPhysicalName 1 pla_l "bottom_lower" s
  let s := setPhysicalName 1 pla_p "periodic_lower" s
  let s := setPhysicalName 1 pla_u "top_lower" s
  let (psa2, s) := addPhysicalGroup 2 [psa] s
  let s := setPhysicalName 2 psa2 "lower" s
  let translation : List ℚ :=
    [1, 0, 0, w,
     0, 1, 0, 0,
     0, 0, 1, 0,
     0, 0, 0, 1]
  let s := setPeriodic 1 [l1] [l3] translation s
  geoWrite (tempPath tag "geo_unrolled") s

/-- The affine matrix the builders forward for a left/right periodic
pairing: a pure x-translation by the rectangle width, in row-major 4x4
form. -/
def rlTranslation (w : ℚ) : List ℚ :=
  [1, 0, 0, w,
   0, 1, 0, 0,
   0, 0, 1, 0,
   0, 0, 0, 1]

/-- The x-coordinate of the point with the given tag in a geo state. -/
def pointX (s : GeoState) (p : Nat) : Option ℚ :=
  (s.points.find? (fun q => q.1 = p)).map (fun q => q.2.1.1)

/-! ## Theorems settling the claims -/

/-- C1 (counterexample): a POST whose form field `name` is "x" gets JSON
null as response body, not the numbers object, refuting the claim that
every GET/POST request receives the numbers object. -/
theorem C1_counterexample :
    (index ⟨Method.POST, [("name", "x")]⟩).2 = Except.ok Option.none ∧
    (index ⟨Method.POST, [("name", "x")]⟩).2 ≠
      Except.ok (some ⟨List.range 10, Method.POST⟩) := by
  refine ⟨rfl, ?_⟩
  intro h
  simp [index, indexResponse, formGet] at h

/-- C1 (amended): every GET request, and every POST request whose form
field `name` equals "numbers", receives the JSON object with numbers
[0..9] and the request method. -/
theorem C1_amended_response :
    ∀ form : List (String × String),
      (index ⟨Method.GET, form⟩).2 =
        Except.ok (some ⟨List.range 10, Method.GET⟩) ∧
      (formGet form "name" = some "numbers" →
        (index ⟨Method.POST, form⟩).2 =
          Except.ok (some ⟨List.range 10, Method.POST⟩)) := by
  intro form
  refine ⟨rfl, ?_⟩
  intro h
  simp [index, indexResponse, h]

/-- C1 (witness): the amended theorem applied to the form
[("name", "numbers")]. -/
theorem C1_amended_response_witness :
    (index ⟨Method.POST, [("name", "numbers")]⟩).2 =
      Except.ok (some ⟨List.range 10, Method.POST⟩) :=
  (C1_amended_response [("name", "numbers")]).2 rfl

/-- C2 (counterexample): a POST to the collection endpoint dispatches to
no handler — the viewset defines no create action — so no HTTP request
makes the viewset create a FEM record. -/
theorem C2_counterexample :
    femDispatch RouteKind.collection HttpMethod.POST = Option.none ∧
    ViewAction.create ∉ femViewSetActions := by
  decide

/-- C2 (amended): FEM records can be read (list on the collection route,
retrieve on the detail route) and updated (PUT and PATCH on the detail
route) through the viewset, but creation is not supported: the viewset
lacks CreateModelMixin, and POST dispatches to no handler on any route. -/
theorem C2_amended_crud :
    femDispatch RouteKind.collection HttpMethod.GET = some ViewAction.list ∧
    femDispatch RouteKind.detail HttpMethod.GET = some ViewAction.retrieve ∧
    femDispatch RouteKind.detail HttpMethod.PUT = some ViewAction.update ∧
    femDispatch RouteKind.detail HttpMethod.PATCH = some ViewAction.updatePatch ∧
    (∀ rk, femDispatch rk HttpMethod.POST = Option.none) := by
  decide

/-- C3: the /fem endpoint accepts exactly GET (list on the collection
route, retrieve on the detail route, plus the extra `fem` action route),
PUT and PATCH (update handlers on the detail route); POST (create) and
DELETE dispatch to no handler on any route. -/
theorem C3_fem_endpoint_methods :
    femDispatch RouteKind.collection HttpMethod.GET = some ViewAction.list ∧
    femDispatch RouteKind.detail HttpMethod.GET = some ViewAction.retrieve ∧
    femDispatch RouteKind.extraFem HttpMethod.GET = some ViewAction.femAction ∧
    femDispatch RouteKind.detail HttpMethod.PUT = some ViewAction.update ∧
    femDispatch RouteKind.detail HttpMethod.PATCH = some ViewAction.updatePatch ∧
    (∀ rk, femDispatch rk HttpMethod.POST = Option.none) ∧
    (∀ rk, femDispatch rk HttpMethod.DELETE = Option.none) := by
  decide

/-- C4: when the model dimension is negative after the open attempt,
Geometry.open raises ValueError carrying the message that names the file,
and if gmsh.open raised ValueError that exception was caught and logged
with the same message; when the dimension is nonnegative, open raises
nothing and writes the unrolled geometry to the temp directory; the
message contains the file name. -/
theorem C4_open_behavior :
    ∀ (tag filename : String) (env : GmshOpenEnv),
      (env.dimAfterOpen < 0 →
        (geometryOpen tag filename env).2 =
          Except.error (PyExn.valueError (openErrMsg filename)) ∧
        (env.openRaisesValueError = true →
          (geometryOpen tag filename env).1 =
            [LogEntry.error (openErrMsg filename)])) ∧
      (0 ≤ env.dimAfterOpen →
        (geometryOpen tag filename env).2 =
          Except.ok [tempPath tag "geo_unrolled"]) ∧
      (∃ pre post, openErrMsg filename = pre ++ pathName filename ++ post) := by
  intro tag filename env
  refine ⟨?_, ?_, ?_⟩
  · intro hdim
    constructor
    · simp [geometryOpen, if_pos hdim]
    · intro hraise
      simp [geometryOpen, hraise, if_pos hdim]
  · intro hdim
    simp [geometryOpen, not_lt.mpr hdim]
  · exact ⟨"Can" ++ apos ++ " open the file \"", "\"", rfl⟩

/-- C4 (witness): the behaviour on the failing sample file of
test_open_fail, with gmsh.open raising and the dimension staying -1. -/
theorem C4_open_behavior_witness :
    (geometryOpen "geometry" "samples/fail_assembly3d.STEP" ⟨true, -1⟩).2 =
      Except.error
        (PyExn.valueError (openErrMsg "samples/fail_assembly3d.STEP")) ∧
    (geometryOpen "geometry" "samples/fail_assembly3d.STEP" ⟨true, -1⟩).1 =
      [LogEntry.error (openErrMsg "samples/fail_assembly3d.STEP")] := by
  have h :=
    (C4_open_behavior "geometry" "samples/fail_assembly3d.STEP" ⟨true, -1⟩).1
      (by decide)
  exact ⟨h.1, h.2 rfl⟩

/-- C5: each builder forwards literal 4x4 affine x-translation matrices to
gmsh setPeriodic, pairing the right boundary line (slave) with the left
boundary line (master): geom_a and geom_b pair curve 2 with curve 4 and
curve 6 with curve 8 with x-translation 1 (the rectangle width), geom_c
pairs curve 2 with curve 4 with x-translation w; geom_b's only other
periodic call is the bottom/top pairing with y-translation eps. In
geom_c, curve 2 joins the points with x-coordinate w (the right side) and
curve 4 joins the points with x-coordinate 0 (the left side); the
matrices are constants independent of the meshing parameters, so no
periodicity computation happens in the builders themselves. -/
theorem C5_periodic_forwarding :
    ∀ (tag : String) (lc eps w h : ℚ),
      (geom_a tag lc eps).periodic =
        [⟨1, [2], [4], rlTranslation 1⟩, ⟨1, [6], [8], rlTranslation 1⟩] ∧
      (geom_b tag lc eps).periodic =
        [⟨1, [2], [4], rlTranslation 1⟩, ⟨1, [6], [8], rlTranslation 1⟩,
         ⟨1, [5], [3], [1, 0, 0, 0, 0, 1, 0, eps, 0, 0, 1, 0, 0, 0, 0, 1]⟩] ∧
      (geom_c tag lc w h).periodic = [⟨1, [2], [4], rlTranslation w⟩] ∧
      (geom_c tag lc w h).curves = [(1, 1, 2), (2, 2, 3), (3, 3, 4), (4, 4, 1)] ∧
      pointX (geom_c tag lc w h) 2 = some w ∧
      pointX (geom_c tag lc w h) 3 = some w ∧
      pointX (geom_c tag lc w h) 4 = some 0 ∧
      pointX (geom_c tag lc w h) 1 = some 0 ∧
      pointX (geom_a tag lc eps) 2 = some 1 ∧
      pointX (geom_a tag lc eps) 3 = some 1 ∧
      pointX (geom_a tag lc eps) 4 = some 0 ∧
      pointX (geom_a tag lc eps) 1 = some 0 := by
  intro tag lc eps w h
  exact ⟨rfl, rfl, rfl, rfl, rfl, rfl, rfl, rfl, rfl, rfl, rfl, rfl⟩

/-- C6: serializing any FEM record yields exactly the fields id, name,
email, message (the Meta.fields tuple of FEMSerializer), and no others. -/
theorem C6_serializer_fields :
    ∀ r : FEM,
      (serializeFEM r).map Prod.fst = femSerializerFields ∧
      femSerializerFields = ["id", "name", "email", "message"] := by
  intro r
  exact ⟨rfl, rfl⟩

/-- C7: on every request the handler constructs the rectangle mesh with
the fixed arguments — corners (0,0,0) and (1,1,0), a 32-by-32
subdivision, triangular cells, ghost mode none — and the response equals
`indexResponse r`, a function of the request alone, so the constructed
mesh does not influence the response value. -/
theorem C7_mesh_hardcoded :
    ∀ r : Request,
      (index r).1 =
        { corners := [[0, 0, 0], [1, 1, 0]], divisions := [32, 32],
          cellType := CellType.triangle, ghostMode := GhostMode.none } ∧
      (index r).2 = indexResponse r := by
  intro r
  exact ⟨rfl, rfl⟩

/-- C8: Geometry.save never propagates an exception — for every tag, file
format and gmsh.write outcome the result is Except.ok — and when
gmsh.write raises, the exception is logged and nothing is written (no
recovery action). -/
theorem C8_save_never_raises :
    ∀ (tag fileFormat : String) (writeRaises : Option String),
      (∃ out, geometrySave tag fileFormat writeRaises = Except.ok out) ∧
      (∀ e, geometrySave tag fileFormat (some e) =
        Except.ok ([LogEntry.error e], [])) := by
  intro tag fileFormat writeRaises
  refine ⟨?_, fun e => rfl⟩
  cases writeRaises with
  | none => exact ⟨([], [tempPath tag fileFormat]), rfl⟩
  | some e => exact ⟨([LogEntry.error e], []), rfl⟩

/-- C9: a POST whose form field `name` is present but different from
"numbers" gets JSON null as response body, and a POST whose form lacks
the key `name` raises an uncaught KeyError (which Flask turns into a 500
response). -/
theorem C9_post_name_behavior :
    ∀ (form : List (String × String)) (name : String),
      (formGet form "name" = some name → name ≠ "numbers" →
        (index ⟨Method.POST, form⟩).2 = Except.ok Option.none) ∧
      (formGet form "name" = Option.none →
        (index ⟨Method.POST, form⟩).2 =
          Except.error (PyExn.keyError "name")) := by
  intro form name
  constructor
  · intro h hne
    simp [index, indexResponse, h, hne]
  · intro h
    simp [index, indexResponse, h]

/-- C9 (witness): the theorem applied to the form [("name", "x")] and to
the empty form. -/
theorem C9_post_name_behavior_witness :
    (index ⟨Method.POST, [("name", "x")]⟩).2 = Except.ok Option.none ∧
    (index ⟨Method.POST, []⟩).2 = Except.error (PyExn.keyError "name") :=
  ⟨(C9_post_name_behavior [("name", "x")] "x").1 rfl (by decide),
   (C9_post_name_behavior [] "x").2 rfl⟩

/-- C10: every __del__ call returns normally (the return in the finally
block swallows any re-raise), decrements the class counter by exactly
one, invokes gmsh.finalize exactly when the counter equals 1, and returns
0 whenever finalization succeeds or is skipped. -/
theorem C10_del_behavior :
    ∀ (counter : Int) (fin : Except PyExn Unit),
      ∃ r : DelResult,
        geometryDel counter fin = Except.ok r ∧
        r.counterAfter = counter - 1 ∧
        (r.finalized = true ↔ counter = 1) ∧
        (counter ≠ 1 → r.returnValue = 0) ∧
        (fin = Except.ok () → r.returnValue = 0) := by
  intro counter fin
  by_cases hc : counter = 1
  · subst hc
    cases fin with
    | ok u =>
      exact ⟨⟨0, 0, true⟩, rfl, rfl, by simp, fun h => absurd rfl h,
        fun _ => rfl⟩
    | error e =>
      exact ⟨⟨0, -1, true⟩, rfl, rfl, by simp, fun h => absurd rfl h,
        fun h => Except.noConfusion h⟩
  · have hdec : decide (counter = 1) = false := decide_eq_false hc
    have hdel : geometryDel counter fin = Except.ok ⟨counter - 1, 0, false⟩ := by
      simp [geometryDel, if_neg hc, hdec]
    exact ⟨⟨counter - 1, 0, false⟩, hdel, rfl, by simp [hc], fun _ => rfl,
      fun _ => rfl⟩

/-- C10 (witness): deleting the last instance (counter 1) with finalize
succeeding: the counter drops to 0, finalize ran, and the return is 0. -/
theorem C10_del_behavior_witness :
    ∃ r : DelResult,
      geometryDel 1 (Except.ok ()) = Except.ok r ∧
      r.counterAfter = 0 ∧ r.finalized = true ∧ r.returnValue = 0 := by
  obtain ⟨r, h1, h2, h3, _, h5⟩ := C10_del_behavior 1 (Except.ok ())
  exact ⟨r, h1, by rw [h2]; decide, h3.2 rfl, h5 rfl⟩

end OnlineFem
